import Mathlib

/-!
Verification development for the Kho Inventory Management System.

Part A embeds the stock-tracking collaborator code that exists in the
repository (`backend/models/Product.js`, `backend/routes/dashboard.js`).

Part B models the Module 2 demand-forecasting and reorder-suggestion
engine.  The repository describes this engine only in documentation
(`README` of Module 2, deployment guide, spec §4); no executable
implementation is checked in, so the definitions below are modelled from
the spec's component contracts and are marked as such.
-/

namespace Kho

/-! ### Part A: stock tracking collaborator (embedded from source) -/

/-- Embeds the `stockStatus` virtual of `backend/models/Product.js`
(lines 114–122): `out_of_stock` when the quantity is exactly zero,
`low_stock` when it is at most `minStock`, otherwise `in_stock`.
Mongoose `Number` fields are modelled as rationals. -/
def stockStatus (quantity minStock : ℚ) : String :=
  if quantity = 0 then "out_of_stock"
  else if quantity ≤ minStock then "low_stock"
  else "in_stock"

/-- A product record as far as order creation is concerned:
`_id`, `name` and the stored stock `quantity`
(`backend/models/Product.js`, schema field `quantity`). -/
structure ProductRec where
  id : String
  name : String
  quantity : ℤ
deriving DecidableEq, Repr

/-- One entry of the `items` array of a POST /api/orders request body
(`backend/routes/dashboard.js` lines 452–454). -/
structure OrderItem where
  product : String
  quantity : ℤ
deriving DecidableEq, Repr

/-- `Product.findById` on the in-memory database state. -/
def findProduct (db : List ProductRec) (pid : String) : Option ProductRec :=
  db.find? (fun p => p.id = pid)

/-- The express-validator checks on the request body that concern items:
`items` must be a non-empty array and every `items.*.quantity` an integer
of at least 1 (`backend/routes/dashboard.js` lines 452–454). -/
def itemsValid (items : List OrderItem) : Bool :=
  !items.isEmpty && items.all (fun it => 1 ≤ it.quantity)

/-- The validation loop of POST /api/orders (lines 472–497): for each item
the product is looked up and its availability is checked against the
stored quantity; the first failure produces the 400 error message.
The stock is not modified during this loop. -/
def stockCheckError (db : List ProductRec) (items : List OrderItem) : Option String :=
  items.findSome? (fun it =>
    match findProduct db it.product with
    | none => some ("Product not found: " ++ it.product)
    | some p =>
      if p.quantity < it.quantity then
        some ("Insufficient stock for " ++ p.name)
      else none)

/-- One step of the post-save loop (lines 527–532): the
`Product.findByIdAndUpdate` call that `$inc`-decrements the ordered
product's stored quantity by the item quantity.  The `$inc` update
bypasses the schema validator, so no lower bound is enforced here. -/
def applyDecrement (db : List ProductRec) (it : OrderItem) : List ProductRec :=
  db.map (fun p =>
    if p.id = it.product then { p with quantity := p.quantity - it.quantity } else p)

/-- POST /api/orders (`backend/routes/dashboard.js` lines 448–541), reduced
to its effect on stored product quantities: validate the body, run the
stock-availability check loop, and on success decrement each ordered
product's quantity item by item.  `.error` is the 400 response. -/
def createOrder (db : List ProductRec) (items : List OrderItem) :
    Except String (List ProductRec) :=
  if itemsValid items = false then .error "validation failed"
  else
    match stockCheckError db items with
    | some e => .error e
    | none => .ok (items.foldl applyDecrement db)

/-! ### Part B: Module 2 forecasting engine, modelled from the spec -/

/-- Modelled from the spec: trend direction of a demand series (§3
`VelocityProfile.trend_direction`). -/
inductive TrendDirection where
  | Increasing | Decreasing | Stable
deriving DecidableEq, Repr

/-- Modelled from the spec: model-quality classification (§3 `Forecast`). -/
inductive ModelQuality where
  | Good | Fair | Poor
deriving DecidableEq, Repr

/-- Modelled from the spec: urgency of a reorder suggestion (§3). -/
inductive Urgency where
  | Low | Medium | High
deriving DecidableEq, Repr

/-- Modelled from the spec: stockout risk classification (§3). -/
inductive RiskLevel where
  | LowRisk | MediumRisk | HighRisk
deriving DecidableEq, Repr

/-- Modelled from the spec: the engine configuration (§6, and the
`config` example of the Module 2 README).  The confidence level is
carried as a rational; `min_history_days` is the §4.1 exclusion
threshold (default 14); `trend_epsilon` is the §4.2 slope threshold;
`trend_escalation_threshold` is the §4.4 urgency-escalation threshold. -/
structure EngineConfig where
  forecast_horizon_days : ℕ
  lead_time_days : ℕ
  safety_stock_factor : ℚ
  confidence_level : ℚ
  min_order_quantity : ℕ
  max_order_quantity : ℕ
  seasonality_additive : Bool
  min_history_days : ℕ
  trend_epsilon : ℚ
  trend_escalation_threshold : ℚ
deriving DecidableEq, Repr

/-- Modelled from the spec: per-product-line daily demand series produced
by Data Preparation (§3 `ProductSeries`); `quantities` is the
chronological gap-filled sequence of daily quantities, indexed by day
offset from the first observed day. -/
structure ProductSeries where
  product_line : String
  quantities : List ℚ
deriving DecidableEq, Repr

/-- Modelled from the spec: z-score for the configured confidence level
(§4.4 "(upper−lower)/(2·z) at the given confidence level"); the standard
normal quantiles for the usual levels, defaulting to the 95% value. -/
def zScore (conf : ℚ) : ℚ :=
  if conf = 99/100 then 2576/1000
  else if conf = 95/100 then 196/100
  else if conf = 9/10 then 1645/1000
  else 196/100

/-- Rational square-root approximation: `Nat.sqrt` on the scaled
numerator, exact on perfect squares of integers and `0` on non-positive
inputs.  Used wherever the spec calls for a standard deviation. -/
def ratSqrt (q : ℚ) : ℚ :=
  if q ≤ 0 then 0
  else (Nat.sqrt (q.num.toNat * q.den * 1000000) : ℚ) / ((q.den : ℚ) * 1000)

/-- Mean of a list of rationals, `0` for the empty list (§4.2
`avg_daily_velocity` = mean quantity over the full series). -/
def listMean (l : List ℚ) : ℚ :=
  if l.length = 0 then 0 else l.sum / l.length

/-- Sample variance (denominator `n − 1`), `0` when fewer than two
points; guarded so a constant-zero series yields `0` (§4.2). -/
def listVariance (l : List ℚ) : ℚ :=
  if l.length ≤ 1 then 0
  else ((l.map (fun x => (x - listMean l) ^ 2)).sum) / ((l.length : ℚ) - 1)

/-- Sample standard deviation via `ratSqrt` (§4.2 `velocity_volatility`). -/
def sampleStd (l : List ℚ) : ℚ :=
  ratSqrt (listVariance l)

/-- Modelled from the spec: least-squares slope of quantity against day
index (§4.2 trend regression); `0` when the regression is degenerate
(fewer than two distinct indices). -/
def slopeOf (l : List ℚ) : ℚ :=
  let n : ℚ := l.length
  let xs := (List.range l.length).map (fun i => (i : ℚ))
  let sx := xs.sum
  let sy := l.sum
  let sxy := ((xs.zip l).map (fun p => p.1 * p.2)).sum
  let sxx := (xs.map (fun x => x ^ 2)).sum
  let den := n * sxx - sx ^ 2
  if den = 0 then 0 else (n * sxy - sx * sy) / den

/-- The sub-series of quantities falling on day-of-week `d` (day indices
congruent to `d` mod 7). -/
def dowBucket (l : List ℚ) (d : ℕ) : List ℚ :=
  (l.enum.filter (fun p => p.1 % 7 = d)).map (fun p => p.2)

/-- Modelled from the spec: multiplicative day-of-week seasonal factor —
the bucket mean over the overall mean, defaulting to `1` when the overall
mean is zero or the bucket is empty (§4.2, §4.2 zero-series guard). -/
def seasonalFactor (l : List ℚ) (d : ℕ) : ℚ :=
  let m := listMean l
  if m = 0 then 1
  else
    let b := dowBucket l d
    if b.length = 0 then 1 else listMean b / m

/-- Modelled from the spec: additive day-of-week seasonal term — the
bucket mean minus the overall mean, `0` for an empty bucket (§4.3
additive seasonality mode). -/
def seasonalAdd (l : List ℚ) (d : ℕ) : ℚ :=
  let b := dowBucket l d
  if b.length = 0 then 0 else listMean b - listMean l

/-- Modelled from the spec: §3 `VelocityProfile`.  Calendar-month factors
require calendar dates, which the day-offset series does not carry, so
the seasonal factors are the seven day-of-week multipliers. -/
structure VelocityProfile where
  product_line : String
  avg_daily_velocity : ℚ
  velocity_volatility : ℚ
  trend_direction : TrendDirection
  trend_magnitude : ℚ
  seasonal_factors : List ℚ
deriving DecidableEq, Repr

/-- Modelled from the spec: the Velocity & Seasonality Analyzer (§4.2) —
mean, sample standard deviation, regression trend with the ε·mean
threshold, and day-of-week seasonal factors. -/
def analyzeVelocity (s : ProductSeries) (cfg : EngineConfig) : VelocityProfile :=
  let m := listMean s.quantities
  let sl := slopeOf s.quantities
  { product_line := s.product_line
    avg_daily_velocity := m
    velocity_volatility := sampleStd s.quantities
    trend_direction :=
      if cfg.trend_epsilon * m < sl then .Increasing
      else if sl < -(cfg.trend_epsilon * m) then .Decreasing
      else .Stable
    trend_magnitude := sl
    seasonal_factors := (List.range 7).map (seasonalFactor s.quantities) }

/-- Modelled from the spec: one horizon day of a Forecast (§3). -/
structure ForecastPoint where
  point_estimate : ℚ
  lower_bound : ℚ
  upper_bound : ℚ
deriving DecidableEq, Repr

/-- Modelled from the spec: §3 `Forecast`. -/
structure Forecast where
  product_line : String
  horizon_days : ℕ
  points : List ForecastPoint
  confidence_level : ℚ
  model_quality : ModelQuality
deriving DecidableEq, Repr

/-- Modelled from the spec: the error raised when the underlying
time-series model fails to converge (§7 `ModelFitError`). -/
inductive ModelFitError where
  | fitFailure (message : String)
deriving DecidableEq, Repr

/-- Modelled from the spec: a fitted per-product model exposing the
capability set (predict future day, residual standard deviation) of the
§9 strategy pattern. -/
structure FittedModel where
  predict : ℕ → ℚ
  sigma : ℚ

/-- Modelled from the spec: a pluggable model-fitting strategy (§9
"polymorphic over a capability set so alternative model implementations
can be swapped without touching callers"); fallible per §4.3. -/
def FitFn : Type :=
  ProductSeries → EngineConfig → Except ModelFitError FittedModel

/-- Modelled from the spec: the default trend+seasonality fit (§4.3) —
least-squares linear trend plus day-of-week seasonality, additive or
multiplicative per configuration, with the sample standard deviation as
residual scale.  Future day `i` has absolute day index `n + i`. -/
def primaryFit : FitFn := fun s cfg =>
  let q := s.quantities
  let n := q.length
  let m := listMean q
  let sl := slopeOf q
  let intercept := m - sl * ((n : ℚ) - 1) / 2
  .ok
    { predict := fun i =>
        let base := intercept + sl * ((n + i : ℕ) : ℚ)
        if cfg.seasonality_additive then base + seasonalAdd q ((n + i) % 7)
        else base * seasonalFactor q ((n + i) % 7)
      sigma := sampleStd q }

/-- A forecast point from a raw model estimate and an interval halfwidth:
the point estimate is floored at zero (demand quantities are non-negative
per §3 `DemandObservation`), with a symmetric interval around it. -/
def mkPoint (raw hw : ℚ) : ForecastPoint :=
  let p := max raw 0
  { point_estimate := p, lower_bound := p - hw, upper_bound := p + hw }

/-- Modelled from the spec: the naive fallback forecast (§4.3) —
last-value-carried-forward, flat over the horizon, zero-width interval,
quality `Poor`.  For an all-zero series this is exactly the mandated flat
zero forecast with zero-width interval. -/
def naiveForecast (s : ProductSeries) (cfg : EngineConfig) : Forecast :=
  let p := max ((s.quantities.getLast?).getD 0) 0
  { product_line := s.product_line
    horizon_days := cfg.forecast_horizon_days
    points := List.replicate cfg.forecast_horizon_days
      { point_estimate := p, lower_bound := p, upper_bound := p }
    confidence_level := cfg.confidence_level
    model_quality := .Poor }

/-- Modelled from the spec: holdout length for quality classification —
`min(7, series_length/4)` (§4.3). -/
def holdoutLen (n : ℕ) : ℕ :=
  min 7 (n / 4)

/-- Mean absolute percentage error over the holdout, skipping zero
actuals to guard the division; `none` when no term is defined. -/
def mape (actual preds : List ℚ) : Option ℚ :=
  let terms := ((actual.zip preds).filter (fun p => p.1 ≠ 0)).map
    (fun p => |p.1 - p.2| / |p.1|)
  if terms.length = 0 then none else some (listMean terms)

/-- Modelled from the spec: MAPE-based model-quality classification
(§4.3): refit on the series minus the holdout, score the holdout, and
classify Good below 10%, Fair below 25%, else Poor; undefined or failed
validation classifies conservatively. -/
def qualityOf (fit : FitFn) (s : ProductSeries) (cfg : EngineConfig) : ModelQuality :=
  let q := s.quantities
  let h := holdoutLen q.length
  if h = 0 then .Fair
  else
    match fit { product_line := s.product_line, quantities := q.take (q.length - h) } cfg with
    | .error _ => .Poor
    | .ok m =>
      let preds := (List.range h).map m.predict
      match mape (q.drop (q.length - h)) preds with
      | none => .Poor
      | some e => if e < 1/10 then .Good else if e < 1/4 then .Fair else .Poor

/-- Modelled from the spec: the forecast produced from a successfully
fitted model (§4.3) — per horizon day, the floored point estimate with a
symmetric interval of halfwidth z·σ at the configured confidence level. -/
def modelForecast (s : ProductSeries) (m : FittedModel) (quality : ModelQuality)
    (cfg : EngineConfig) : Forecast :=
  let hw := zScore cfg.confidence_level * max m.sigma 0
  { product_line := s.product_line
    horizon_days := cfg.forecast_horizon_days
    points := (List.range cfg.forecast_horizon_days).map (fun i => mkPoint (m.predict i) hw)
    confidence_level := cfg.confidence_level
    model_quality := quality }

/-- Modelled from the spec: the Forecasting Engine (§4.3).  An all-zero
series short-circuits to the mandated flat zero forecast; a fit failure
falls back to the naive forecast marked `Poor`; the engine is total —
`ModelFitError` never escapes it. -/
def forecastProduct (fit : FitFn) (s : ProductSeries) (cfg : EngineConfig) : Forecast :=
  if s.quantities.all (fun x => x = 0) then naiveForecast s cfg
  else
    match fit s cfg with
    | .error _ => naiveForecast s cfg
    | .ok m => modelForecast s m (qualityOf fit s cfg) cfg

/-- Modelled from the spec: §3 `ReorderSuggestion`.  The trend fields are
carried from the VelocityProfile because the ranker's score weighs trend
magnitude (§4.5); `priority_score` is assigned by the ranker (§4.5) and
is `0` until then. -/
structure ReorderSuggestion where
  product_line : String
  current_stock : ℚ
  lead_time_days : ℕ
  safety_stock : ℚ
  reorder_point : ℚ
  suggested_order_quantity : ℤ
  urgency : Urgency
  risk_level : RiskLevel
  priority_score : ℚ
  trend_direction : TrendDirection
  trend_magnitude : ℚ
  recommendation : String
deriving DecidableEq, Repr

/-- Numeric value of a risk level, for scoring and tie-breaks. -/
def riskVal : RiskLevel → ℚ
  | .LowRisk => 0
  | .MediumRisk => 1
  | .HighRisk => 2

/-- Numeric value of an urgency level, for scoring and tie-breaks. -/
def urgVal : Urgency → ℚ
  | .Low => 0
  | .Medium => 1
  | .High => 2

/-- Urgency mirroring a risk level (§4.4). -/
def urgencyOfRisk : RiskLevel → Urgency
  | .LowRisk => .Low
  | .MediumRisk => .Medium
  | .HighRisk => .High

/-- One-level urgency escalation (§4.4). -/
def escalate : Urgency → Urgency
  | .Low => .Medium
  | .Medium => .High
  | .High => .High

/-- Modelled from the spec: expected demand during lead time — the sum of
the point estimates of the first `lead_time_days` forecast days (§4.4). -/
def expectedLeadDemand (fc : Forecast) (cfg : EngineConfig) : ℚ :=
  (((fc.points.take cfg.lead_time_days).map (fun p => p.point_estimate))).sum

/-- Modelled from the spec: demand-during-lead-time standard deviation,
derived from the interval widths as (upper−lower)/(2·z) per day and
accumulated assuming independence across days (§4.4). -/
def leadDemandStd (fc : Forecast) (cfg : EngineConfig) : ℚ :=
  let z := zScore cfg.confidence_level
  ratSqrt (((fc.points.take cfg.lead_time_days).map
    (fun p => ((p.upper_bound - p.lower_bound) / (2 * z)) ^ 2)).sum)

/-- Modelled from the spec: the Reorder Policy Calculator (§4.4).
Safety stock is the factor times the lead-time demand standard deviation
floored at 0; the reorder point adds the expected lead-time demand; the
suggested quantity is 0 when current stock already covers the reorder
point (§8: "suggested_order_quantity = 0 when current_stock already
exceeds reorder_point") and otherwise the shortfall clamped into
[min_order_quantity, max_order_quantity] and rounded to an integer;
risk mirrors the stock position and urgency escalates on a strong
increasing trend. -/
def reorderCalc (fc : Forecast) (prof : VelocityProfile) (stock : ℚ)
    (cfg : EngineConfig) : ReorderSuggestion :=
  let safety := max (cfg.safety_stock_factor * leadDemandStd fc cfg) 0
  let rp := expectedLeadDemand fc cfg + safety
  let raw := max (rp - stock) 0
  let qty : ℤ :=
    if raw = 0 then 0
    else round (min (max raw (cfg.min_order_quantity : ℚ)) (cfg.max_order_quantity : ℚ))
  let risk : RiskLevel :=
    if stock < safety then .HighRisk
    else if stock < rp then .MediumRisk
    else .LowRisk
  let baseUrg := urgencyOfRisk risk
  let urg :=
    if prof.trend_direction = .Increasing ∧
        cfg.trend_escalation_threshold < prof.trend_magnitude then
      escalate baseUrg
    else baseUrg
  { product_line := fc.product_line
    current_stock := stock
    lead_time_days := cfg.lead_time_days
    safety_stock := safety
    reorder_point := rp
    suggested_order_quantity := qty
    urgency := urg
    risk_level := risk
    priority_score := 0
    trend_direction := prof.trend_direction
    trend_magnitude := prof.trend_magnitude
    recommendation :=
      "Order " ++ toString qty ++ " units for " ++ fc.product_line ++
      " before stock reaches the reorder point" }

/-- Modelled from the spec: the priority score (§4.5) — 40% risk, 30%
urgency, 20% trend magnitude (capped at 1 unit/day for normalization),
10% revenue contribution (not available, hence 0), normalized to 0–100. -/
def scoreOf (s : ReorderSuggestion) : ℚ :=
  40 * (riskVal s.risk_level / 2) + 30 * (urgVal s.urgency / 2) +
    20 * min |s.trend_magnitude| 1

/-- A suggestion with its ranker-assigned priority score (§4.5). -/
def withScore (s : ReorderSuggestion) : ReorderSuggestion :=
  { s with priority_score := scoreOf s }

/-- Modelled from the spec: the ranking order (§4.5) — descending
priority score, ties broken by higher risk level, then higher urgency,
then alphabetical product-line name. -/
def rankRel (a b : ReorderSuggestion) : Prop :=
  b.priority_score < a.priority_score ∨
    (b.priority_score = a.priority_score ∧
      (riskVal b.risk_level < riskVal a.risk_level ∨
        (riskVal b.risk_level = riskVal a.risk_level ∧
          (urgVal b.urgency < urgVal a.urgency ∨
            (urgVal b.urgency = urgVal a.urgency ∧
              a.product_line ≤ b.product_line)))))

instance : DecidableRel rankRel := fun a b => by
  unfold rankRel; infer_instance

/-- The ranking order as a lexicographic key: ascending in
(−priority_score, −risk value, −urgency value, name), which is exactly
descending score with the documented tie-breaks.  Used to transfer the
linear-order laws to `rankRel`. -/
def rankKey (s : ReorderSuggestion) : ℚ ×ₗ (ℚ ×ₗ (ℚ ×ₗ String)) :=
  toLex (-s.priority_score,
    toLex (-(riskVal s.risk_level), toLex (-(urgVal s.urgency), s.product_line)))

/-- Modelled from the spec: the Priority & Risk Ranker (§4.5) — assign
each suggestion its priority score and sort by the documented order. -/
def rank (l : List ReorderSuggestion) : List ReorderSuggestion :=
  List.insertionSort rankRel (l.map withScore)

/-- Modelled from the spec: reasons attached to report warnings (§7). -/
inductive WarningReason where
  | insufficient_history
  | poor_quality
deriving DecidableEq, Repr

/-- Modelled from the spec: one entry of the report's `warnings` list
(§7: "every AnalysisReport carries a warnings list enumerating
degraded/excluded product lines and the reason"). -/
structure ReportWarning where
  product_line : String
  reason : WarningReason
deriving DecidableEq, Repr

/-- Modelled from the spec: a raw transaction row (§4.1, §6), with the
timestamp already parsed to a day number. -/
structure TransactionRow where
  product_line : String
  day : ℕ
  quantity : ℚ
deriving DecidableEq, Repr

/-- Modelled from the spec: §3 `AnalysisReport`, with the components the
claims examine: total product count, velocity profiles, forecasts,
ranked suggestions, and warnings. -/
structure AnalysisReport where
  total_products : ℕ
  profiles : List VelocityProfile
  forecasts : List Forecast
  suggestions : List ReorderSuggestion
  warnings : List ReportWarning
deriving Repr

/-- The distinct product lines appearing in the transaction feed. -/
def linesOf (txns : List TransactionRow) : List String :=
  (txns.map (fun t => t.product_line)).dedup

/-- Modelled from the spec: Data Preparation for one product line (§4.1)
— group the line's rows by calendar day, sum quantities, and gap-fill
every day between the first and last observed day with zero. -/
def buildSeries (txns : List TransactionRow) (line : String) : List ℚ :=
  let rows := txns.filter (fun t => t.product_line = line)
  match rows with
  | [] => []
  | r :: rs =>
    let ds := (r :: rs).map (fun t => t.day)
    let dmin := ds.foldr Nat.min r.day
    let dmax := ds.foldr Nat.max r.day
    (List.range (dmax - dmin + 1)).map (fun i =>
      (((r :: rs).filter (fun t => t.day = dmin + i)).map (fun t => t.quantity)).sum)

/-- Current stock lookup from the externally supplied map (§6), zero for
unknown lines. -/
def lookupStock (stock : List (String × ℚ)) (line : String) : ℚ :=
  (((stock.find? (fun p => p.1 = line)).map (fun p => p.2))).getD 0

/-- Modelled from the spec: one analysis run of the whole pipeline
(§2 control flow 4.1 → 4.2 → 4.3 → 4.4 → 4.5 → 4.6).  Product lines
below the minimum history are excluded from forecasting and flagged
`insufficient_history` but still counted in `total_products`; the others
flow through the analyzer, engine, calculator, and ranker; poor-quality
forecasts are additionally flagged. -/
def runAnalysis (fit : FitFn) (txns : List TransactionRow)
    (stock : List (String × ℚ)) (cfg : EngineConfig) : AnalysisReport :=
  let ls := linesOf txns
  let excluded := ls.filter (fun l => (buildSeries txns l).length < cfg.min_history_days)
  let modeled := ls.filter (fun l => ¬(buildSeries txns l).length < cfg.min_history_days)
  let mkSeries := fun l => ProductSeries.mk l (buildSeries txns l)
  let forecasts := modeled.map (fun l => forecastProduct fit (mkSeries l) cfg)
  let profiles := modeled.map (fun l => analyzeVelocity (mkSeries l) cfg)
  let sugg := modeled.map (fun l =>
    reorderCalc (forecastProduct fit (mkSeries l) cfg) (analyzeVelocity (mkSeries l) cfg)
      (lookupStock stock l) cfg)
  { total_products := ls.length
    profiles := profiles
    forecasts := forecasts
    suggestions := rank sugg
    warnings :=
      excluded.map (fun l => ReportWarning.mk l .insufficient_history) ++
        (forecasts.filter (fun f => f.model_quality = .Poor)).map
          (fun f => ReportWarning.mk f.product_line .poor_quality) }

/-! ### Concrete inputs used to exercise the model -/

/-- The Module 2 README's example configuration, with a short horizon. -/
def cfgW : EngineConfig :=
  { forecast_horizon_days := 3
    lead_time_days := 2
    safety_stock_factor := 3/2
    confidence_level := 95/100
    min_order_quantity := 10
    max_order_quantity := 1000
    seasonality_additive := true
    min_history_days := 14
    trend_epsilon := 1/100
    trend_escalation_threshold := 1 }

/-- A 14-day constant-zero demand series. -/
def zeroSeries : ProductSeries :=
  { product_line := "Zero line", quantities := List.replicate 14 0 }

/-- A 14-day linearly increasing demand series. -/
def upSeries : ProductSeries :=
  { product_line := "Rising line", quantities := (List.range 14).map (fun i => (i : ℚ) + 1) }

/-- A fitting strategy that always fails to converge. -/
def failFit : FitFn := fun _ _ => .error (.fitFailure "model failed to converge")

/-- A one-day transaction feed: far below the 14-day history minimum. -/
def txnsW : List TransactionRow :=
  [{ product_line := "A", day := 0, quantity := 5 }]

/-- A concrete reorder suggestion, for exercising the ranker. -/
def sugW1 : ReorderSuggestion :=
  { product_line := "Alpha", current_stock := 0, lead_time_days := 2, safety_stock := 0,
    reorder_point := 0, suggested_order_quantity := 0, urgency := .Low,
    risk_level := .LowRisk, priority_score := 0, trend_direction := .Stable,
    trend_magnitude := 0, recommendation := "r1" }

/-- Another concrete reorder suggestion, for exercising the ranker. -/
def sugW2 : ReorderSuggestion :=
  { product_line := "Beta", current_stock := 5, lead_time_days := 2, safety_stock := 1,
    reorder_point := 2, suggested_order_quantity := 3, urgency := .High,
    risk_level := .HighRisk, priority_score := 0, trend_direction := .Increasing,
    trend_magnitude := 2, recommendation := "r2" }

/-! ## Theorems -/

/-- C9: on a non-negative quantity (and the schema-guaranteed
non-negative `minStock`), `stockStatus` is a total trichotomy:
`out_of_stock` exactly at zero, `low_stock` exactly on
`0 < quantity ≤ minStock` (the boundary counts as low stock), and
`in_stock` exactly on `quantity > minStock`. -/
theorem stockStatus_trichotomy (q m : ℚ) (hq : 0 ≤ q) (hm : 0 ≤ m) :
    (stockStatus q m = "out_of_stock" ↔ q = 0) ∧
    (stockStatus q m = "low_stock" ↔ 0 < q ∧ q ≤ m) ∧
    (stockStatus q m = "in_stock" ↔ m < q) := by
  unfold stockStatus
  rcases eq_or_lt_of_le hq with hq0 | hq0
  · rw [if_pos hq0.symm]
    refine ⟨by simp [← hq0], ?_, ?_⟩
    · constructor
      · intro h; exact absurd h (by decide)
      · rintro ⟨h1, _⟩; rw [← hq0] at h1; exact absurd h1 (lt_irrefl 0)
    · constructor
      · intro h; exact absurd h (by decide)
      · intro h; rw [← hq0] at h; exact absurd h (not_lt.mpr hm)
  · rw [if_neg (ne_of_gt hq0)]
    by_cases hle : q ≤ m
    · rw [if_pos hle]
      refine ⟨?_, ?_, ?_⟩
      · constructor
        · intro h; exact absurd h (by decide)
        · intro h; exact absurd h (ne_of_gt hq0)
      · exact ⟨fun _ => ⟨hq0, hle⟩, fun _ => rfl⟩
      · constructor
        · intro h; exact absurd h (by decide)
        · intro h; exact absurd hle (not_le.mpr h)
    · rw [if_neg hle]
      refine ⟨?_, ?_, ?_⟩
      · constructor
        · intro h; exact absurd h (by decide)
        · intro h; exact absurd h (ne_of_gt hq0)
      · constructor
        · intro h; exact absurd h (by decide)
        · rintro ⟨_, h2⟩; exact absurd h2 hle
      · exact ⟨fun _ => not_le.mp hle, fun _ => rfl⟩

/-- Witness for C9 at quantity 7 and minStock 10 (a low-stock state). -/
theorem stockStatus_trichotomy_witness :
    (stockStatus 7 10 = "out_of_stock" ↔ (7 : ℚ) = 0) ∧
    (stockStatus 7 10 = "low_stock" ↔ (0 : ℚ) < 7 ∧ (7 : ℚ) ≤ 10) ∧
    (stockStatus 7 10 = "in_stock" ↔ (10 : ℚ) < 7) :=
  stockStatus_trichotomy 7 10 (by norm_num) (by norm_num)

/-- C10: the order-creation route checks each item against the stored
quantity that existed before any decrement, so an order listing the same
product on two lines — each within stock but jointly exceeding it —
passes the check and drives the stored quantity negative: with 5 in
stock, two lines of 3 each succeed and leave the quantity at −1. -/
theorem createOrder_duplicate_negative :
    createOrder [{ id := "p1", name := "Widget", quantity := 5 }]
        [{ product := "p1", quantity := 3 }, { product := "p1", quantity := 3 }] =
      .ok [{ id := "p1", name := "Widget", quantity := -1 }] ∧
    ((-1 : ℤ) < 0) := by
  constructor
  · rfl
  · decide

/-! ### Helper lemmas about the forecasting model -/

theorem ratSqrt_nonneg (q : ℚ) : 0 ≤ ratSqrt q := by
  unfold ratSqrt
  split
  · exact le_refl 0
  · apply div_nonneg
    · exact_mod_cast Nat.zero_le _
    · positivity

theorem zScore_pos (c : ℚ) : 0 < zScore c := by
  unfold zScore
  split <;> [norm_num; split] <;> [norm_num; skip]
  split <;> norm_num

theorem forecastProduct_pline (fit : FitFn) (s : ProductSeries) (cfg : EngineConfig) :
    (forecastProduct fit s cfg).product_line = s.product_line := by
  unfold forecastProduct
  split
  · rfl
  · split <;> rfl

theorem forecast_point_shape (fit : FitFn) (s : ProductSeries) (cfg : EngineConfig) :
    ∀ p ∈ (forecastProduct fit s cfg).points,
      0 ≤ p.point_estimate ∧
      p.lower_bound ≤ p.point_estimate ∧ p.point_estimate ≤ p.upper_bound := by
  intro p hp
  unfold forecastProduct at hp
  split at hp
  · rw [naiveForecast] at hp
    simp only [List.eq_of_mem_replicate hp]
    refine ⟨le_max_right _ _, le_refl _, le_refl _⟩
  · split at hp
    · rw [naiveForecast] at hp
      simp only [List.eq_of_mem_replicate hp]
      refine ⟨le_max_right _ _, le_refl _, le_refl _⟩
    · rename_i m heq
      rw [modelForecast] at hp
      simp only [List.mem_map] at hp
      obtain ⟨i, _, rfl⟩ := hp
      have hw : 0 ≤ zScore cfg.confidence_level * max m.sigma 0 :=
        mul_nonneg (zScore_pos _).le (le_max_right _ _)
      refine ⟨le_max_right _ _, ?_, ?_⟩
      · exact sub_le_self _ hw
      · exact le_add_of_nonneg_right hw

theorem expectedLeadDemand_nonneg (fit : FitFn) (s : ProductSeries) (cfg : EngineConfig) :
    0 ≤ expectedLeadDemand (forecastProduct fit s cfg) cfg := by
  unfold expectedLeadDemand
  apply List.sum_nonneg
  intro x hx
  simp only [List.mem_map] at hx
  obtain ⟨p, hp, rfl⟩ := hx
  exact (forecast_point_shape fit s cfg p (List.mem_of_mem_take hp)).1

/-- C1: every forecast the engine emits — through the fitted model, the
naive fallback, or the all-zero short-circuit — brackets its point
estimate by the interval bounds on every horizon day. -/
theorem forecast_bounds_bracket_point (fit : FitFn) (s : ProductSeries)
    (cfg : EngineConfig) :
    ∀ p ∈ (forecastProduct fit s cfg).points,
      p.lower_bound ≤ p.point_estimate ∧ p.point_estimate ≤ p.upper_bound :=
  fun p hp => (forecast_point_shape fit s cfg p hp).2

/-- Witness for C1 on the all-zero 14-day series under the README
configuration: its first forecast point is bracketed. -/
theorem forecast_bounds_bracket_point_witness :
    ({ point_estimate := 0, lower_bound := 0, upper_bound := 0 } : ForecastPoint) ∈
      (forecastProduct primaryFit zeroSeries cfgW).points ∧
    ((0 : ℚ) ≤ 0 ∧ (0 : ℚ) ≤ 0) :=
  ⟨by decide,
   forecast_bounds_bracket_point primaryFit zeroSeries cfgW
     { point_estimate := 0, lower_bound := 0, upper_bound := 0 } (by decide)⟩

/-- C4: a model-fit failure never escapes the Forecasting Engine (its
result type is a plain `Forecast`); whenever the pluggable fit strategy
fails with a `ModelFitError`, the engine still returns a forecast — the
naive fallback — marked with `model_quality = Poor`, so a failing product
line cannot abort the analysis run. -/
theorem fit_failure_fallback (fit : FitFn) (s : ProductSeries) (cfg : EngineConfig)
    (e : ModelFitError) (h : fit s cfg = .error e) :
    forecastProduct fit s cfg = naiveForecast s cfg ∧
    (forecastProduct fit s cfg).model_quality = .Poor := by
  unfold forecastProduct
  split
  · exact ⟨rfl, rfl⟩
  · rw [h]
    exact ⟨rfl, rfl⟩

/-- Witness for C4: a strategy that always reports `ModelFitError` on the
rising 14-day series still yields the naive fallback, marked Poor. -/
theorem fit_failure_fallback_witness :
    forecastProduct failFit upSeries cfgW = naiveForecast upSeries cfgW ∧
    (forecastProduct failFit upSeries cfgW).model_quality = .Poor :=
  fit_failure_fallback failFit upSeries cfgW
    (.fitFailure "model failed to converge") rfl

/-- C3: for every suggestion computed from an engine forecast, safety
stock is the configured factor times the lead-time demand standard
deviation floored at zero, the reorder point adds the expected lead-time
demand (the sum of the first `lead_time_days` point estimates), and
consequently `reorder_point ≥ safety_stock ≥ 0`. -/
theorem reorder_decomposition (fit : FitFn) (s : ProductSeries)
    (prof : VelocityProfile) (stock : ℚ) (cfg : EngineConfig) :
    (reorderCalc (forecastProduct fit s cfg) prof stock cfg).safety_stock =
      max (cfg.safety_stock_factor * leadDemandStd (forecastProduct fit s cfg) cfg) 0 ∧
    (reorderCalc (forecastProduct fit s cfg) prof stock cfg).reorder_point =
      expectedLeadDemand (forecastProduct fit s cfg) cfg +
        (reorderCalc (forecastProduct fit s cfg) prof stock cfg).safety_stock ∧
    0 ≤ (reorderCalc (forecastProduct fit s cfg) prof stock cfg).safety_stock ∧
    (reorderCalc (forecastProduct fit s cfg) prof stock cfg).safety_stock ≤
      (reorderCalc (forecastProduct fit s cfg) prof stock cfg).reorder_point := by
  refine ⟨rfl, rfl, le_max_right _ _, ?_⟩
  show (fun sug => sug.safety_stock ≤ sug.reorder_point) (reorderCalc _ prof stock cfg)
  simp only [reorderCalc]
  exact le_add_of_nonneg_left (expectedLeadDemand_nonneg fit s cfg)

theorem round_between {lo hi : ℤ} {x : ℚ} (h1 : (lo : ℚ) ≤ x) (h2 : x ≤ (hi : ℚ)) :
    lo ≤ round x ∧ round x ≤ hi := by
  have hfl : lo ≤ ⌊x⌋ := Int.le_floor.mpr h1
  have hcl : ⌈x⌉ ≤ hi := Int.ceil_le.mpr h2
  have hfc : ⌊x⌋ ≤ ⌈x⌉ := Int.floor_le_ceil x
  unfold round
  split
  · exact ⟨hfl, le_trans hfc hcl⟩
  · exact ⟨le_trans hfl hfc, hcl⟩

theorem qty_formula_bounds (raw : ℚ) (minQ maxQ : ℕ) (h : minQ ≤ maxQ) :
    0 ≤ (if raw = 0 then (0 : ℤ)
         else round (min (max raw (minQ : ℚ)) (maxQ : ℚ))) ∧
    (if raw = 0 then (0 : ℤ)
     else round (min (max raw (minQ : ℚ)) (maxQ : ℚ))) ≤ (maxQ : ℤ) := by
  split
  · exact ⟨le_refl 0, Int.natCast_nonneg maxQ⟩
  · have h1 : ((minQ : ℤ) : ℚ) ≤ min (max raw (minQ : ℚ)) (maxQ : ℚ) := by
      push_cast
      exact le_min (le_max_right _ _) (by exact_mod_cast h)
    have h2 : min (max raw (minQ : ℚ)) (maxQ : ℚ) ≤ ((maxQ : ℤ) : ℚ) := by
      push_cast
      exact min_le_right _ _
    obtain ⟨hl, hr⟩ := round_between h1 h2
    exact ⟨le_trans (Int.natCast_nonneg minQ) hl, hr⟩

/-- C2 counterexample: under the README configuration (minimum order 10 ≤
maximum order 1000), the all-zero series with 5 units in stock needs no
order, and the calculator suggests 0 — not the claimed unconditional
clamp `round (clamp (max(reorder_point − stock, 0), 10, 1000))`, which
would force an order of 10 units.  -/
theorem suggested_qty_claim_cex :
    cfgW.min_order_quantity ≤ cfgW.max_order_quantity ∧
    (reorderCalc (forecastProduct primaryFit zeroSeries cfgW)
        (analyzeVelocity zeroSeries cfgW) 5 cfgW).suggested_order_quantity ≠
      round (min (max (max ((reorderCalc (forecastProduct primaryFit zeroSeries cfgW)
              (analyzeVelocity zeroSeries cfgW) 5 cfgW).reorder_point - 5) 0)
          (cfgW.min_order_quantity : ℚ)) (cfgW.max_order_quantity : ℚ)) := by
  exact ⟨by decide, by with_unfolding_all decide⟩

/-- C2 amended: when the current stock already covers the reorder point
the suggested quantity is 0 (§8); otherwise it is the shortfall
`max(reorder_point − current_stock, 0)` clamped into
[min_order_quantity, max_order_quantity] and rounded; in either case it
is a non-negative integer never exceeding `max_order_quantity` whenever
`min_order_quantity ≤ max_order_quantity`. -/
theorem suggested_qty_bounds (fc : Forecast) (prof : VelocityProfile) (stock : ℚ)
    (cfg : EngineConfig) (h : cfg.min_order_quantity ≤ cfg.max_order_quantity) :
    (reorderCalc fc prof stock cfg).suggested_order_quantity =
      (if max ((reorderCalc fc prof stock cfg).reorder_point - stock) 0 = 0 then 0
       else round (min (max (max ((reorderCalc fc prof stock cfg).reorder_point - stock) 0)
         (cfg.min_order_quantity : ℚ)) (cfg.max_order_quantity : ℚ))) ∧
    0 ≤ (reorderCalc fc prof stock cfg).suggested_order_quantity ∧
    (reorderCalc fc prof stock cfg).suggested_order_quantity ≤
      (cfg.max_order_quantity : ℤ) := by
  refine ⟨rfl, ?_, ?_⟩
  · exact (qty_formula_bounds (max ((reorderCalc fc prof stock cfg).reorder_point - stock) 0)
      cfg.min_order_quantity cfg.max_order_quantity h).1
  · exact (qty_formula_bounds (max ((reorderCalc fc prof stock cfg).reorder_point - stock) 0)
      cfg.min_order_quantity cfg.max_order_quantity h).2

/-- Witness for the amended C2 on the all-zero series with stock 5 under
the README configuration. -/
theorem suggested_qty_bounds_witness :
    (reorderCalc (forecastProduct primaryFit zeroSeries cfgW)
        (analyzeVelocity zeroSeries cfgW) 5 cfgW).suggested_order_quantity =
      (if max ((reorderCalc (forecastProduct primaryFit zeroSeries cfgW)
            (analyzeVelocity zeroSeries cfgW) 5 cfgW).reorder_point - 5) 0 = 0 then 0
       else round (min (max (max ((reorderCalc (forecastProduct primaryFit zeroSeries cfgW)
             (analyzeVelocity zeroSeries cfgW) 5 cfgW).reorder_point - 5) 0)
         (cfgW.min_order_quantity : ℚ)) (cfgW.max_order_quantity : ℚ))) ∧
    0 ≤ (reorderCalc (forecastProduct primaryFit zeroSeries cfgW)
        (analyzeVelocity zeroSeries cfgW) 5 cfgW).suggested_order_quantity ∧
    (reorderCalc (forecastProduct primaryFit zeroSeries cfgW)
        (analyzeVelocity zeroSeries cfgW) 5 cfgW).suggested_order_quantity ≤
      (cfgW.max_order_quantity : ℤ) :=
  suggested_qty_bounds (forecastProduct primaryFit zeroSeries cfgW)
    (analyzeVelocity zeroSeries cfgW) 5 cfgW (by decide)

/-- C5: a product line present in the input whose gap-filled history is
shorter than the configured minimum receives no Forecast and no
ReorderSuggestion, is flagged `insufficient_history` in the report's
warnings, and is still counted in `total_products`. -/
theorem insufficient_history_excluded (fit : FitFn) (txns : List TransactionRow)
    (stock : List (String × ℚ)) (cfg : EngineConfig) (line : String)
    (hmem : line ∈ linesOf txns)
    (hshort : (buildSeries txns line).length < cfg.min_history_days) :
    (∀ f ∈ (runAnalysis fit txns stock cfg).forecasts, f.product_line ≠ line) ∧
    (∀ sug ∈ (runAnalysis fit txns stock cfg).suggestions, sug.product_line ≠ line) ∧
    ReportWarning.mk line .insufficient_history ∈ (runAnalysis fit txns stock cfg).warnings ∧
    (runAnalysis fit txns stock cfg).total_products = (linesOf txns).length := by
  refine ⟨?_, ?_, ?_, rfl⟩
  · intro f hf
    simp only [runAnalysis, List.mem_map, List.mem_filter] at hf
    obtain ⟨l, ⟨_, hl⟩, rfl⟩ := hf
    intro hcontra
    rw [forecastProduct_pline] at hcontra
    have hll : l = line := hcontra
    rw [hll] at hl
    exact absurd hshort (by simpa using hl)
  · intro sug hsug
    simp only [runAnalysis, rank] at hsug
    have hsug' := (List.perm_insertionSort rankRel _).mem_iff.mp hsug
    simp only [List.mem_map, List.mem_filter] at hsug'
    obtain ⟨s₀, ⟨l, ⟨_, hl⟩, rfl⟩, rfl⟩ := hsug'
    intro hcontra
    have hc2 : (reorderCalc (forecastProduct fit
        { product_line := l, quantities := buildSeries txns l } cfg)
        (analyzeVelocity { product_line := l, quantities := buildSeries txns l } cfg)
        (lookupStock stock l) cfg).product_line = line := hcontra
    have hc3 : (forecastProduct fit
        { product_line := l, quantities := buildSeries txns l } cfg).product_line = line := hc2
    rw [forecastProduct_pline] at hc3
    have hll : l = line := hc3
    rw [hll] at hl
    exact absurd hshort (by simpa using hl)
  · simp only [runAnalysis, List.mem_append]
    left
    exact List.mem_map.mpr ⟨line, List.mem_filter.mpr ⟨hmem, by simpa using hshort⟩, rfl⟩

/-- Witness for C5: a single one-day transaction for line "A" under the
default 14-day minimum — "A" is excluded, flagged, and counted. -/
theorem insufficient_history_excluded_witness :
    (∀ f ∈ (runAnalysis primaryFit txnsW [] cfgW).forecasts, f.product_line ≠ "A") ∧
    (∀ sug ∈ (runAnalysis primaryFit txnsW [] cfgW).suggestions, sug.product_line ≠ "A") ∧
    ReportWarning.mk "A" .insufficient_history ∈ (runAnalysis primaryFit txnsW [] cfgW).warnings ∧
    (runAnalysis primaryFit txnsW [] cfgW).total_products = (linesOf txnsW).length :=
  insufficient_history_excluded primaryFit txnsW [] cfgW "A" (by decide)
    (by with_unfolding_all decide)

/-- C7: the pipeline is a pure function of the transaction feed, the
current-stock map, the configuration, and the fitting strategy — two
runs on identical inputs produce identical AnalysisReports (there is no
hidden state or randomness anywhere in the model). -/
theorem pipeline_deterministic (fit₁ fit₂ : FitFn)
    (txns₁ txns₂ : List TransactionRow) (stock₁ stock₂ : List (String × ℚ))
    (cfg₁ cfg₂ : EngineConfig) (hf : fit₁ = fit₂) (ht : txns₁ = txns₂)
    (hs : stock₁ = stock₂) (hc : cfg₁ = cfg₂) :
    runAnalysis fit₁ txns₁ stock₁ cfg₁ = runAnalysis fit₂ txns₂ stock₂ cfg₂ := by
  rw [hf, ht, hs, hc]

/-- Witness for C7: two runs on the same concrete inputs coincide. -/
theorem pipeline_deterministic_witness :
    runAnalysis primaryFit txnsW [] cfgW = runAnalysis primaryFit txnsW [] cfgW :=
  pipeline_deterministic primaryFit primaryFit txnsW txnsW [] [] cfgW cfgW
    rfl rfl rfl rfl

/-! ### The ranking order is a total preorder -/

theorem rankRel_iff_key (a b : ReorderSuggestion) :
    rankRel a b ↔ rankKey a ≤ rankKey b := by
  simp only [rankRel, rankKey, Prod.Lex.le_iff, neg_lt_neg_iff, neg_inj]
  constructor
  · rintro (h | ⟨h1, h | ⟨h2, h | ⟨h3, h4⟩⟩⟩)
    · exact Or.inl h
    · exact Or.inr ⟨h1.symm, Or.inl h⟩
    · exact Or.inr ⟨h1.symm, Or.inr ⟨h2.symm, Or.inl h⟩⟩
    · exact Or.inr ⟨h1.symm, Or.inr ⟨h2.symm, Or.inr ⟨h3.symm, h4⟩⟩⟩
  · rintro (h | ⟨h1, h | ⟨h2, h | ⟨h3, h4⟩⟩⟩)
    · exact Or.inl h
    · exact Or.inr ⟨h1.symm, Or.inl h⟩
    · exact Or.inr ⟨h1.symm, Or.inr ⟨h2.symm, Or.inl h⟩⟩
    · exact Or.inr ⟨h1.symm, Or.inr ⟨h2.symm, Or.inr ⟨h3.symm, h4⟩⟩⟩

theorem rankRel_total (a b : ReorderSuggestion) : rankRel a b ∨ rankRel b a := by
  rcases le_total (rankKey a) (rankKey b) with h | h
  · exact Or.inl ((rankRel_iff_key a b).mpr h)
  · exact Or.inr ((rankRel_iff_key b a).mpr h)

theorem rankRel_trans (a b c : ReorderSuggestion)
    (h1 : rankRel a b) (h2 : rankRel b c) : rankRel a c :=
  (rankRel_iff_key a c).mpr
    (le_trans ((rankRel_iff_key a b).mp h1) ((rankRel_iff_key b c).mp h2))

theorem rankKey_pline_eq {a b : ReorderSuggestion} (h : rankKey a = rankKey b) :
    a.product_line = b.product_line := by
  simp only [rankKey, toLex_inj, Prod.mk.injEq] at h
  exact h.2.2.2

theorem rankRel_score_le {a b : ReorderSuggestion} (h : rankRel a b) :
    b.priority_score ≤ a.priority_score := by
  rcases h with h | ⟨h, _⟩
  · exact le_of_lt h
  · exact le_of_eq h

/-- Sorted lists that are permutations of each other coincide, provided
the order is antisymmetric on the elements involved. -/
theorem sorted_perm_eq_on {α : Type _} {r : α → α → Prop} :
    ∀ {l₁ l₂ : List α}, l₁.Perm l₂ → l₁.Sorted r → l₂.Sorted r →
      (∀ a ∈ l₁, ∀ b ∈ l₁, r a b → r b a → a = b) → l₁ = l₂ := by
  intro l₁
  induction l₁ with
  | nil =>
    intro l₂ hp _ _ _
    exact hp.nil_eq
  | cons a t ih =>
    intro l₂ hp hs₁ hs₂ hanti
    cases l₂ with
    | nil => exact absurd hp.symm.nil_eq (by simp)
    | cons b t₂ =>
      have hab : a = b := by
        have ha2 : a ∈ b :: t₂ := hp.mem_iff.mp (List.mem_cons_self a t)
        rcases List.mem_cons.mp ha2 with h | h
        · exact h
        · have hba : r b a := (List.sorted_cons.mp hs₂).1 a h
          have hb1 : b ∈ a :: t := hp.symm.mem_iff.mp (List.mem_cons_self b t₂)
          rcases List.mem_cons.mp hb1 with h' | h'
          · exact h'.symm
          · have hab' : r a b := (List.sorted_cons.mp hs₁).1 b h'
            exact hanti a (List.mem_cons_self a t) b (List.mem_cons.mpr (Or.inr h')) hab' hba
      subst hab
      have ht : t = t₂ := ih hp.cons_inv (List.sorted_cons.mp hs₁).2 (List.sorted_cons.mp hs₂).2
        (fun x hx y hy hr hr' =>
          hanti x (List.mem_cons.mpr (Or.inr hx)) y (List.mem_cons.mpr (Or.inr hy)) hr hr')
      rw [ht]

/-- C6: the ranker emits a total order — the output is a permutation of
the scored suggestions, sorted by the documented relation (descending
priority score, ties by higher risk, then higher urgency, then name),
and in particular its scores are descending; and for any two inputs
that are permutations of each other (product lines being distinct per
run), the rankings are identical. -/
theorem ranker_deterministic_total_order (l l' : List ReorderSuggestion)
    (hn : ∀ a ∈ l, ∀ b ∈ l, a.product_line = b.product_line → a = b)
    (hp : l.Perm l') :
    rank l = rank l' ∧ (rank l).Sorted rankRel ∧ (rank l).Perm (l.map withScore) ∧
    (rank l).Sorted (fun a b => b.priority_score ≤ a.priority_score) := by
  haveI : IsTotal ReorderSuggestion rankRel := ⟨rankRel_total⟩
  haveI : IsTrans ReorderSuggestion rankRel := ⟨rankRel_trans⟩
  have hsorted : (rank l).Sorted rankRel := List.sorted_insertionSort rankRel _
  have hsorted' : (rank l').Sorted rankRel := List.sorted_insertionSort rankRel _
  have hperm : (rank l).Perm (l.map withScore) := List.perm_insertionSort rankRel _
  have hperm' : (rank l').Perm (l'.map withScore) := List.perm_insertionSort rankRel _
  have hbig : (rank l).Perm (rank l') := hperm.trans ((hp.map withScore).trans hperm'.symm)
  have hanti : ∀ a ∈ rank l, ∀ b ∈ rank l, rankRel a b → rankRel b a → a = b := by
    intro a ha b hb hab hba
    obtain ⟨x, hx, rfl⟩ := List.mem_map.mp (hperm.mem_iff.mp ha)
    obtain ⟨y, hy, rfl⟩ := List.mem_map.mp (hperm.mem_iff.mp hb)
    have hkey : rankKey (withScore x) = rankKey (withScore y) :=
      le_antisymm ((rankRel_iff_key _ _).mp hab) ((rankRel_iff_key _ _).mp hba)
    have hname := rankKey_pline_eq hkey
    rw [hn x hx y hy hname]
  refine ⟨sorted_perm_eq_on hbig hsorted hsorted' hanti, hsorted, hperm, ?_⟩
  exact List.Pairwise.imp (fun h => rankRel_score_le h) hsorted

/-- Witness for C6 on the two concrete suggestions in both input orders. -/
theorem ranker_deterministic_total_order_witness :
    rank [sugW1, sugW2] = rank [sugW2, sugW1] ∧
    (rank [sugW1, sugW2]).Sorted rankRel ∧
    (rank [sugW1, sugW2]).Perm ([sugW1, sugW2].map withScore) ∧
    (rank [sugW1, sugW2]).Sorted (fun a b => b.priority_score ≤ a.priority_score) :=
  ranker_deterministic_total_order [sugW1, sugW2] [sugW2, sugW1]
    (by with_unfolding_all decide) (List.Perm.swap sugW2 sugW1 [])

/-! ### The constant-zero series degenerates gracefully -/

theorem listMean_of_all_zero {l : List ℚ} (h : ∀ x ∈ l, x = 0) : listMean l = 0 := by
  unfold listMean
  split
  · rfl
  · rw [List.sum_eq_zero h, zero_div]

theorem listVariance_of_all_zero {l : List ℚ} (h : ∀ x ∈ l, x = 0) :
    listVariance l = 0 := by
  unfold listVariance
  split
  · rfl
  · rw [List.sum_eq_zero, zero_div]
    intro x hx
    obtain ⟨y, hy, rfl⟩ := List.mem_map.mp hx
    rw [h y hy, listMean_of_all_zero h]
    norm_num

theorem ratSqrt_of_nonpos {q : ℚ} (h : q ≤ 0) : ratSqrt q = 0 := by
  unfold ratSqrt
  rw [if_pos h]

theorem sampleStd_of_all_zero {l : List ℚ} (h : ∀ x ∈ l, x = 0) : sampleStd l = 0 := by
  unfold sampleStd
  rw [listVariance_of_all_zero h]
  exact ratSqrt_of_nonpos le_rfl

theorem slopeOf_of_all_zero {l : List ℚ} (h : ∀ x ∈ l, x = 0) : slopeOf l = 0 := by
  have hsy : l.sum = 0 := List.sum_eq_zero h
  have hsxy : (((((List.range l.length).map (fun i => (i : ℚ)))).zip l).map
      (fun p => p.1 * p.2)).sum = 0 := by
    apply List.sum_eq_zero
    intro x hx
    obtain ⟨p, hp, rfl⟩ := List.mem_map.mp hx
    rw [h p.2 (List.of_mem_zip hp).2, mul_zero]
  simp only [slopeOf, hsy, hsxy, mul_zero, sub_self, zero_div, ite_self]

theorem seasonalFactor_of_mean_zero {l : List ℚ} (h : listMean l = 0) (d : ℕ) :
    seasonalFactor l d = 1 := by
  unfold seasonalFactor
  rw [if_pos h]

theorem analyzeVelocity_of_all_zero (line : String) (qs : List ℚ) (cfg : EngineConfig)
    (h : ∀ x ∈ qs, x = 0) :
    analyzeVelocity { product_line := line, quantities := qs } cfg =
      { product_line := line, avg_daily_velocity := 0, velocity_volatility := 0,
        trend_direction := .Stable, trend_magnitude := 0,
        seasonal_factors := List.replicate 7 1 } := by
  have hm : listMean qs = 0 := listMean_of_all_zero h
  have hsl : slopeOf qs = 0 := slopeOf_of_all_zero h
  have hfac : (List.range 7).map (seasonalFactor qs) = List.replicate 7 1 := by
    rw [List.eq_replicate_iff]
    refine ⟨by simp, ?_⟩
    intro b hb
    obtain ⟨d, _, rfl⟩ := List.mem_map.mp hb
    exact seasonalFactor_of_mean_zero hm d
  simp only [analyzeVelocity, hm, hsl, sampleStd_of_all_zero h, hfac,
    VelocityProfile.mk.injEq, mul_zero, neg_zero, lt_irrefl, if_false]

theorem forecastProduct_of_all_zero (fit : FitFn) (line : String) (qs : List ℚ)
    (cfg : EngineConfig) (h : ∀ x ∈ qs, x = 0) :
    forecastProduct fit { product_line := line, quantities := qs } cfg =
      { product_line := line, horizon_days := cfg.forecast_horizon_days,
        points := List.replicate cfg.forecast_horizon_days
          { point_estimate := 0, lower_bound := 0, upper_bound := 0 },
        confidence_level := cfg.confidence_level, model_quality := .Poor } := by
  have hall : (qs.all fun x => decide (x = 0)) = true := by
    rw [List.all_eq_true]
    intro x hx
    exact decide_eq_true (h x hx)
  have hlast : (qs.getLast?).getD 0 = 0 := by
    cases hq : qs.getLast? with
    | none => rfl
    | some a => exact h a (List.mem_of_getLast?_eq_some hq)
  unfold forecastProduct
  rw [if_pos hall]
  unfold naiveForecast
  rw [hlast, max_self]

theorem zero_reorder_fields (fit : FitFn) (line : String) (qs : List ℚ)
    (stock : ℚ) (cfg : EngineConfig) (h : ∀ x ∈ qs, x = 0) (hs : 0 ≤ stock) :
    (reorderCalc (forecastProduct fit { product_line := line, quantities := qs } cfg)
        (analyzeVelocity { product_line := line, quantities := qs } cfg)
        stock cfg).safety_stock = 0 ∧
    (reorderCalc (forecastProduct fit { product_line := line, quantities := qs } cfg)
        (analyzeVelocity { product_line := line, quantities := qs } cfg)
        stock cfg).reorder_point = 0 ∧
    (reorderCalc (forecastProduct fit { product_line := line, quantities := qs } cfg)
        (analyzeVelocity { product_line := line, quantities := qs } cfg)
        stock cfg).suggested_order_quantity = 0 ∧
    (reorderCalc (forecastProduct fit { product_line := line, quantities := qs } cfg)
        (analyzeVelocity { product_line := line, quantities := qs } cfg)
        stock cfg).risk_level = .LowRisk ∧
    (reorderCalc (forecastProduct fit { product_line := line, quantities := qs } cfg)
        (analyzeVelocity { product_line := line, quantities := qs } cfg)
        stock cfg).urgency = .Low := by
  rw [forecastProduct_of_all_zero fit line qs cfg h,
    analyzeVelocity_of_all_zero line qs cfg h]
  have hpts : ∀ p ∈ List.replicate cfg.forecast_horizon_days
      ({ point_estimate := 0, lower_bound := 0, upper_bound := 0 } : ForecastPoint),
      p = { point_estimate := 0, lower_bound := 0, upper_bound := 0 } :=
    fun p hp => List.eq_of_mem_replicate hp
  have hexp : expectedLeadDemand
      { product_line := line, horizon_days := cfg.forecast_horizon_days,
        points := List.replicate cfg.forecast_horizon_days
          { point_estimate := 0, lower_bound := 0, upper_bound := 0 },
        confidence_level := cfg.confidence_level, model_quality := .Poor } cfg = 0 := by
    apply List.sum_eq_zero
    intro x hx
    obtain ⟨p, hp, rfl⟩ := List.mem_map.mp hx
    rw [hpts p (List.mem_of_mem_take hp)]
  have hstd : leadDemandStd
      { product_line := line, horizon_days := cfg.forecast_horizon_days,
        points := List.replicate cfg.forecast_horizon_days
          { point_estimate := 0, lower_bound := 0, upper_bound := 0 },
        confidence_level := cfg.confidence_level, model_quality := .Poor } cfg = 0 := by
    simp only [leadDemandStd]
    rw [List.sum_eq_zero, ratSqrt_of_nonpos le_rfl]
    intro x hx
    obtain ⟨p, hp, rfl⟩ := List.mem_map.mp hx
    rw [hpts p (List.mem_of_mem_take hp)]
    norm_num
  simp only [reorderCalc, hexp, hstd, mul_zero, max_self, add_zero, zero_add, zero_sub]
  have hraw : max (-stock) 0 = 0 := max_eq_right (neg_nonpos.mpr hs)
  have hnlt : ¬stock < 0 := not_lt.mpr hs
  simp [hraw, hnlt, urgencyOfRisk]

/-- C8: on an all-zero demand series (with a non-negative stock reading)
every guarded division takes its default — the analyzer reports zero
velocity and volatility, a Stable trend, and all seasonal factors 1 —
and the forecast is flat at zero with a zero-width interval, giving
reorder point 0, suggested order quantity 0, and Low urgency. -/
theorem zero_series_degenerate (fit : FitFn) (line : String) (qs : List ℚ)
    (stock : ℚ) (cfg : EngineConfig) (hq : ∀ x ∈ qs, x = 0) (hs : 0 ≤ stock) :
    (analyzeVelocity { product_line := line, quantities := qs } cfg).avg_daily_velocity = 0 ∧
    (analyzeVelocity { product_line := line, quantities := qs } cfg).velocity_volatility = 0 ∧
    (analyzeVelocity { product_line := line, quantities := qs } cfg).trend_direction = .Stable ∧
    (∀ f ∈ (analyzeVelocity { product_line := line, quantities := qs } cfg).seasonal_factors,
      f = 1) ∧
    (∀ p ∈ (forecastProduct fit { product_line := line, quantities := qs } cfg).points,
      p.point_estimate = 0 ∧ p.lower_bound = 0 ∧ p.upper_bound = 0) ∧
    (forecastProduct fit { product_line := line, quantities := qs } cfg).model_quality =
      .Poor ∧
    (reorderCalc (forecastProduct fit { product_line := line, quantities := qs } cfg)
        (analyzeVelocity { product_line := line, quantities := qs } cfg)
        stock cfg).reorder_point = 0 ∧
    (reorderCalc (forecastProduct fit { product_line := line, quantities := qs } cfg)
        (analyzeVelocity { product_line := line, quantities := qs } cfg)
        stock cfg).suggested_order_quantity = 0 ∧
    (reorderCalc (forecastProduct fit { product_line := line, quantities := qs } cfg)
        (analyzeVelocity { product_line := line, quantities := qs } cfg)
        stock cfg).urgency = .Low := by
  obtain ⟨-, h2, h3, -, h5⟩ := zero_reorder_fields fit line qs stock cfg hq hs
  refine ⟨?_, ?_, ?_, ?_, ?_, ?_, h2, h3, h5⟩
  · rw [analyzeVelocity_of_all_zero line qs cfg hq]
  · rw [analyzeVelocity_of_all_zero line qs cfg hq]
  · rw [analyzeVelocity_of_all_zero line qs cfg hq]
  · rw [analyzeVelocity_of_all_zero line qs cfg hq]
    intro f hf
    exact List.eq_of_mem_replicate hf
  · rw [forecastProduct_of_all_zero fit line qs cfg hq]
    intro p hp
    rw [List.eq_of_mem_replicate hp]
    exact ⟨rfl, rfl, rfl⟩
  · rw [forecastProduct_of_all_zero fit line qs cfg hq]

/-- Witness for C8 on the 14-day all-zero series with stock 5 under the
README configuration. -/
theorem zero_series_degenerate_witness :
    (analyzeVelocity zeroSeries cfgW).avg_daily_velocity = 0 ∧
    (analyzeVelocity zeroSeries cfgW).velocity_volatility = 0 ∧
    (analyzeVelocity zeroSeries cfgW).trend_direction = .Stable ∧
    (∀ f ∈ (analyzeVelocity zeroSeries cfgW).seasonal_factors, f = 1) ∧
    (∀ p ∈ (forecastProduct primaryFit zeroSeries cfgW).points,
      p.point_estimate = 0 ∧ p.lower_bound = 0 ∧ p.upper_bound = 0) ∧
    (forecastProduct primaryFit zeroSeries cfgW).model_quality = .Poor ∧
    (reorderCalc (forecastProduct primaryFit zeroSeries cfgW)
        (analyzeVelocity zeroSeries cfgW) 5 cfgW).reorder_point = 0 ∧
    (reorderCalc (forecastProduct primaryFit zeroSeries cfgW)
        (analyzeVelocity zeroSeries cfgW) 5 cfgW).suggested_order_quantity = 0 ∧
    (reorderCalc (forecastProduct primaryFit zeroSeries cfgW)
        (analyzeVelocity zeroSeries cfgW) 5 cfgW).urgency = .Low :=
  zero_series_degenerate primaryFit "Zero line" (List.replicate 14 0) 5 cfgW
    (fun x hx => List.eq_of_mem_replicate hx) (by norm_num)

end Kho
